import Mathlib

/-!
Shallow embedding of `src/backend/main.py` (Asistente Personal Inteligente).

The service has three interesting endpoints:

* `POST /generar-lista-compra/` — renders a prompt from a `RecetasInput`,
  calls the generative-text provider, inserts a row into the `listas_compra`
  table on success, and returns the generated text; any exception in the
  `try` block (provider call or insert) yields a fixed placeholder string
  with HTTP status 200.
* `POST /sugerir-receta/` — renders a prompt from a `SugerenciaInput`,
  calls the provider and returns the text (or a fixed placeholder on
  failure); it never touches the table.
* `GET /listas` — returns every row of the `listas_compra` table.

The embedding threads the `listas_compra` table (a `List Row`) explicitly
through each handler.  The outcome of the one provider call made by a
handler is a parameter `gen : String → GenOutcome` (applied to the rendered
prompt), and the outcome of the one insert attempted by
`generar_lista_compra` is a parameter `ins : InsertOutcome`; an `err`
outcome stands for the corresponding Python exception, which lands in the
broad `except Exception` handler.  A failed insert leaves the table
unchanged.  HTTP responses are modelled as a pair of the status code
(FastAPI returns 200 for these plain returns) and the response-model body.
-/

/-- `RecetasInput` pydantic model: `nombres_recetas: list[str]`,
`ingredientes_disponibles: list[str] = []`. -/
structure RecetasInput where
  nombres_recetas : List String
  ingredientes_disponibles : List String := []
  deriving DecidableEq, Repr

/-- `ListaCompraOutput` pydantic model: `lista_compra: str`. -/
structure ListaCompraOutput where
  lista_compra : String
  deriving DecidableEq, Repr

/-- `SugerenciaInput` pydantic model: `ingredientes_disponibles: list[str] = []`. -/
structure SugerenciaInput where
  ingredientes_disponibles : List String := []
  deriving DecidableEq, Repr

/-- `SugerenciaOutput` pydantic model: `recetas_sugeridas: str`. -/
structure SugerenciaOutput where
  recetas_sugeridas : String
  deriving DecidableEq, Repr

/-- One row of the `listas_compra` table (columns `id`, `recetas`,
`ingredientes_disponibles`, `lista_generada`); `id` is the auto-increment
primary key. -/
structure Row where
  id : Nat
  recetas : String
  ingredientes_disponibles : String
  lista_generada : String
  deriving DecidableEq, Repr

/-- Outcome of one `model.generate_content(prompt)` call: either it returns
and `response.text` is `text`, or it raises (any exception). -/
inductive GenOutcome where
  | ok (text : String)
  | err
  deriving DecidableEq, Repr

/-- Outcome of the one `database.execute(query)` insert: it either commits
the row or raises (any exception), leaving the table unchanged. -/
inductive InsertOutcome where
  | ok
  | err
  deriving DecidableEq, Repr

/-- Literal text of the f-string in `generar_lista_compra` before the
`nombres_recetas` interpolation (the triple-quoted string keeps its leading
newline and four-space indentation). -/
def promptPre : String :=
  "\n    Eres un asistente de cocina experto. Tu tarea es crear una lista de compras detallada.\n\n    Basado en las siguientes recetas que el usuario quiere preparar:\n    - "

/-- Literal text of the f-string between the `nombres_recetas` and the
`ingredientes_disponibles` interpolations. -/
def promptMid : String :=
  "\n\n    Y teniendo en cuenta que el usuario ya tiene los siguientes ingredientes en casa:\n    - "

/-- Literal text of the f-string after the `ingredientes_disponibles`
interpolation. -/
def promptPost : String :=
  "\n\n    Por favor, genera una lista de todos los ingredientes necesarios para preparar todas las recetas,\n    excluyendo los que el usuario ya tiene. Agrupa los ingredientes por categoría (ej. Verduras, Carnes, Lácteos, Despensa)\n    y especifica cantidades aproximadas si es posible. El formato de la respuesta debe ser claro y fácil de leer.\n    No incluyas los nombres de las recetas en la lista final, solo los ingredientes a comprar.\n    "

/-- The ingredients interpolation of the shopping-list prompt:
`', '.join(recetas_input.ingredientes_disponibles) if
recetas_input.ingredientes_disponibles else "Ninguno"` — Python list
truthiness, so the join is used exactly when the list is non-empty. -/
def promptIng (recetas_input : RecetasInput) : String :=
  if recetas_input.ingredientes_disponibles.isEmpty then "Ninguno"
  else String.intercalate ", " recetas_input.ingredientes_disponibles

/-- The fully rendered prompt of `POST /generar-lista-compra/`. -/
def promptFor (recetas_input : RecetasInput) : String :=
  promptPre ++ String.intercalate ", " recetas_input.nombres_recetas
    ++ promptMid ++ promptIng recetas_input ++ promptPost

/-- The fixed placeholder returned by `generar_lista_compra` when its `try`
block raises. -/
def errorListaCompra : String :=
  "Error: No se pudo generar la lista de la compra."

/-- Handler of `POST /generar-lista-compra/`.  It renders the prompt, calls
the provider, and on success inserts one row (columns: comma-joined recipe
names, comma-joined available ingredients, the generated text) before
returning the generated text with status 200.  If the provider call or the
insert raises, the broad `except Exception` returns the placeholder, still
with status 200. -/
def generar_lista_compra (gen : String → GenOutcome) (ins : InsertOutcome)
    (recetas_input : RecetasInput) (table : List Row) :
    (Nat × ListaCompraOutput) × List Row :=
  match gen (promptFor recetas_input) with
  | GenOutcome.err => ((200, ⟨errorListaCompra⟩), table)
  | GenOutcome.ok lista_generada =>
    match ins with
    | InsertOutcome.err => ((200, ⟨errorListaCompra⟩), table)
    | InsertOutcome.ok =>
        ((200, ⟨lista_generada⟩),
          table ++ [{ id := table.length + 1,
                      recetas := String.intercalate ", " recetas_input.nombres_recetas,
                      ingredientes_disponibles :=
                        String.intercalate ", " recetas_input.ingredientes_disponibles,
                      lista_generada := lista_generada }])

/-- The `ingredientes_texto` interpolation of the suggestion prompt:
`", ".join(...) if sugerencia_input.ingredientes_disponibles else "ninguno"`. -/
def sugerirIng (sugerencia_input : SugerenciaInput) : String :=
  if sugerencia_input.ingredientes_disponibles.isEmpty then "ninguno"
  else String.intercalate ", " sugerencia_input.ingredientes_disponibles

/-- Literal text of the suggestion f-string before `ingredientes_texto`. -/
def sugerirPre : String :=
  "\n    Eres un asistente de cocina creativo.\n    Basado en los siguientes ingredientes que el usuario ya tiene: "

/-- Literal text of the suggestion f-string after `ingredientes_texto`. -/
def sugerirPost : String :=
  ".\n\n    Sugiere una o dos recetas sencillas y deliciosas que se puedan preparar con esos ingredientes (se pueden añadir otros ingredientes comunes).\n    Devuelve únicamente los nombres de las recetas, separados por comas. Por ejemplo: \"Tortilla de patatas, Pollo al ajillo\".\n    No añadas explicaciones ni texto adicional, solo los nombres.\n    "

/-- The fully rendered prompt of `POST /sugerir-receta/`. -/
def sugerirPrompt (sugerencia_input : SugerenciaInput) : String :=
  sugerirPre ++ sugerirIng sugerencia_input ++ sugerirPost

/-- The fixed placeholder returned by `sugerir_receta` on failure. -/
def errorSugerencia : String := "Error al generar sugerencia."

/-- Handler of `POST /sugerir-receta/`.  It calls the provider and returns
its text, or the placeholder when the call raises; the function body never
mentions the `listas_compra` table, so the state component passes through
unchanged. -/
def sugerir_receta (gen : String → GenOutcome)
    (sugerencia_input : SugerenciaInput) (table : List Row) :
    (Nat × SugerenciaOutput) × List Row :=
  match gen (sugerirPrompt sugerencia_input) with
  | GenOutcome.ok text => ((200, ⟨text⟩), table)
  | GenOutcome.err => ((200, ⟨errorSugerencia⟩), table)

/-- Handler of `GET /listas`: `listas_compra.select()` with no filter and no
order clause returns every row. -/
def obtener_listas_guardadas (table : List Row) : List Row := table

/-- One externally triggered operation on the service, with the outcomes of
the external calls it makes recorded alongside the request. -/
inductive Op where
  | generar (gen : String → GenOutcome) (ins : InsertOutcome) (req : RecetasInput)
  | sugerir (gen : String → GenOutcome) (req : SugerenciaInput)
  | listar

/-- Effect of one operation on the `listas_compra` table. -/
def opStep (op : Op) (table : List Row) : List Row :=
  match op with
  | Op.generar gen ins req => (generar_lista_compra gen ins req table).2
  | Op.sugerir gen req => (sugerir_receta gen req table).2
  | Op.listar => obtener_listas_guardadas table

/-- Whether an operation is a successful shopping-list generation call: a
`POST /generar-lista-compra/` whose provider call and insert both succeed
(equivalently, one answered with the generated text rather than the
placeholder). -/
def exitosa (op : Op) : Bool :=
  match op with
  | Op.generar gen ins req =>
      (match gen (promptFor req) with
       | GenOutcome.ok _ => true
       | GenOutcome.err => false)
      && (match ins with
          | InsertOutcome.ok => true
          | InsertOutcome.err => false)
  | _ => false

/-- Table reached after a sequence of operations. -/
def runOps : List Op → List Row → List Row
  | [], table => table
  | op :: ops, table => runOps ops (opStep op table)

/-- Number of successful shopping-list generation calls in a sequence. -/
def countExitosas (ops : List Op) : Nat := (ops.filter exitosa).length

/-- Claim C1: when the provider call of `POST /generar-lista-compra/`
raises, the endpoint still answers with HTTP status 200 and the fixed
placeholder in `lista_compra`, and the `listas_compra` table is unchanged
(no row inserted). -/
theorem C1_fallo_proveedor_placeholder_sin_fila
    (gen : String → GenOutcome) (ins : InsertOutcome)
    (req : RecetasInput) (table : List Row)
    (h : gen (promptFor req) = GenOutcome.err) :
    generar_lista_compra gen ins req table = ((200, ⟨errorListaCompra⟩), table) := by
  simp [generar_lista_compra, h]

/-- Witness for C1 at a concrete request with a failing provider. -/
theorem C1_fallo_proveedor_placeholder_sin_fila_witness :
    (fun _ : String => GenOutcome.err) (promptFor ⟨["Tortilla"], []⟩) = GenOutcome.err
    ∧ generar_lista_compra (fun _ => GenOutcome.err) InsertOutcome.ok
        ⟨["Tortilla"], []⟩ [] = ((200, ⟨errorListaCompra⟩), []) :=
  ⟨rfl, C1_fallo_proveedor_placeholder_sin_fila (fun _ => GenOutcome.err)
    InsertOutcome.ok ⟨["Tortilla"], []⟩ [] rfl⟩

/-- Counterexample to C2 as stated: a run in which the provider call
succeeds (returns the text "Leche") but the insert raises; the handler
falls into the same broad `except` and no row is inserted, so it is not
the case that exactly one new row appears. -/
theorem C2_counterexample :
    (fun _ : String => GenOutcome.ok "Leche") (promptFor ⟨["Tortilla"], []⟩)
        = GenOutcome.ok "Leche"
    ∧ ¬ ((generar_lista_compra (fun _ => GenOutcome.ok "Leche") InsertOutcome.err
          ⟨["Tortilla"], []⟩ []).2.length = 1) := by
  exact ⟨rfl, by decide⟩

/-- Claim C2 (amended): when the provider call succeeds AND the insert
succeeds, exactly one new row is appended, whose `recetas` column is the
comma-joined recipe names, whose `ingredientes_disponibles` column is the
comma-joined available ingredients, and whose `lista_generada` column is
the exact text returned in `lista_compra`. -/
theorem C2_exito_inserta_una_fila
    (gen : String → GenOutcome) (req : RecetasInput) (table : List Row) (t : String)
    (hg : gen (promptFor req) = GenOutcome.ok t) :
    generar_lista_compra gen InsertOutcome.ok req table
      = ((200, ⟨t⟩),
         table ++ [{ id := table.length + 1,
                     recetas := String.intercalate ", " req.nombres_recetas,
                     ingredientes_disponibles :=
                       String.intercalate ", " req.ingredientes_disponibles,
                     lista_generada := t }]) := by
  simp [generar_lista_compra, hg]

/-- Witness for C2 (amended) at a concrete successful request. -/
theorem C2_exito_inserta_una_fila_witness :
    generar_lista_compra (fun _ => GenOutcome.ok "Leche") InsertOutcome.ok
        ⟨["Tortilla", "Ensalada"], ["sal"]⟩ []
      = ((200, ⟨"Leche"⟩),
         [{ id := 1, recetas := "Tortilla, Ensalada",
            ingredientes_disponibles := "sal", lista_generada := "Leche" }]) := by
  exact C2_exito_inserta_una_fila (fun _ => GenOutcome.ok "Leche")
    ⟨["Tortilla", "Ensalada"], ["sal"]⟩ [] "Leche" rfl

/-- Counterexample to C3 as stated: the provider can return the empty
string as its text; the handler passes `response.text` through verbatim,
so `lista_compra` is then the empty string, not a non-empty one. -/
theorem C3_counterexample :
    (fun _ : String => GenOutcome.ok "") (promptFor ⟨["Tortilla"], []⟩)
        = GenOutcome.ok ""
    ∧ ((generar_lista_compra (fun _ => GenOutcome.ok "") InsertOutcome.ok
          ⟨["Tortilla"], []⟩ []).1).2.lista_compra = "" := by
  exact ⟨rfl, rfl⟩

/-- Claim C3 (amended): the response body always carries the `lista_compra`
key, holding either the provider text verbatim or the fixed placeholder;
it is non-empty whenever the provider text is non-empty (the placeholder
itself is non-empty). -/
theorem C3_lista_compra_no_vacia
    (gen : String → GenOutcome) (ins : InsertOutcome)
    (req : RecetasInput) (table : List Row)
    (h : ∀ t, gen (promptFor req) = GenOutcome.ok t → t ≠ "") :
    ((generar_lista_compra gen ins req table).1).2.lista_compra ≠ "" := by
  cases hg : gen (promptFor req) with
  | ok t =>
    cases ins with
    | ok =>
      simpa [generar_lista_compra, hg] using h t hg
    | err =>
      simp [generar_lista_compra, hg]
      decide
  | err =>
    simp [generar_lista_compra, hg]
    decide

/-- Witness for C3 (amended) at a concrete request whose provider returns
non-empty text. -/
theorem C3_lista_compra_no_vacia_witness :
    ((generar_lista_compra (fun _ => GenOutcome.ok "Lista: pan") InsertOutcome.ok
        ⟨["Tortilla"], []⟩ []).1).2.lista_compra ≠ "" :=
  C3_lista_compra_no_vacia (fun _ => GenOutcome.ok "Lista: pan") InsertOutcome.ok
    ⟨["Tortilla"], []⟩ []
    (by intro t ht; injection ht with h2; rw [← h2]; decide)

/-- Claim C4: with an empty `ingredientes_disponibles` list the rendered
prompt carries the literal none-placeholder `"Ninguno"` in the ingredients
position (not the empty join), and that placeholder occurs in the prompt. -/
theorem C4_ingredientes_vacios_placeholder
    (req : RecetasInput) (h : req.ingredientes_disponibles = []) :
    promptIng req = "Ninguno"
    ∧ promptFor req
        = promptPre ++ String.intercalate ", " req.nombres_recetas
            ++ promptMid ++ "Ninguno" ++ promptPost
    ∧ "Ninguno".toList <:+: (promptFor req).toList := by
  have h1 : promptIng req = "Ninguno" := by simp [promptIng, h]
  refine ⟨h1, by rw [promptFor, h1], ?_⟩
  exact ⟨(promptPre ++ String.intercalate ", " req.nombres_recetas ++ promptMid).toList,
    promptPost.toList,
    by simp [promptFor, h1, String.toList, String.data_append, List.append_assoc]⟩

/-- Witness for C4 at a concrete request with no available ingredients. -/
theorem C4_ingredientes_vacios_placeholder_witness :
    promptIng ⟨["Tortilla"], []⟩ = "Ninguno"
    ∧ promptFor ⟨["Tortilla"], []⟩
        = promptPre ++ String.intercalate ", " ["Tortilla"]
            ++ promptMid ++ "Ninguno" ++ promptPost
    ∧ "Ninguno".toList <:+: (promptFor ⟨["Tortilla"], []⟩).toList := by
  exact C4_ingredientes_vacios_placeholder ⟨["Tortilla"], []⟩ rfl

/-- Claim C5: a provider-call failure and an insert failure (after a
successful provider call) land in the same broad `except` and produce the
identical 200-status placeholder response, indistinguishable to the
caller. -/
theorem C5_fallos_indistinguibles
    (gen₁ gen₂ : String → GenOutcome) (ins₁ : InsertOutcome)
    (req₁ req₂ : RecetasInput) (t₁ t₂ : List Row) (s : String)
    (h₁ : gen₁ (promptFor req₁) = GenOutcome.err)
    (h₂ : gen₂ (promptFor req₂) = GenOutcome.ok s) :
    (generar_lista_compra gen₁ ins₁ req₁ t₁).1 = (200, ⟨errorListaCompra⟩)
    ∧ (generar_lista_compra gen₂ InsertOutcome.err req₂ t₂).1
        = (200, ⟨errorListaCompra⟩) := by
  constructor <;> simp [generar_lista_compra, h₁, h₂]

/-- Witness for C5: a concrete generation failure and a concrete insert
failure produce the same placeholder response. -/
theorem C5_fallos_indistinguibles_witness :
    (generar_lista_compra (fun _ => GenOutcome.err) InsertOutcome.ok
        ⟨["Tortilla"], []⟩ []).1 = (200, ⟨errorListaCompra⟩)
    ∧ (generar_lista_compra (fun _ => GenOutcome.ok "Pan y leche") InsertOutcome.err
        ⟨["Ensalada"], []⟩ []).1 = (200, ⟨errorListaCompra⟩) :=
  C5_fallos_indistinguibles (fun _ => GenOutcome.err)
    (fun _ => GenOutcome.ok "Pan y leche") InsertOutcome.ok
    ⟨["Tortilla"], []⟩ ⟨["Ensalada"], []⟩ [] [] "Pan y leche" rfl rfl

theorem length_opStep (op : Op) (table : List Row) :
    (opStep op table).length = table.length + (if exitosa op then 1 else 0) := by
  cases op with
  | generar gen ins req =>
    cases hg : gen (promptFor req) with
    | ok t => cases ins <;> simp [opStep, generar_lista_compra, exitosa, hg]
    | err => simp [opStep, generar_lista_compra, exitosa, hg]
  | sugerir gen req =>
    cases hg : gen (sugerirPrompt req) <;>
      simp [opStep, sugerir_receta, exitosa, hg]
  | listar => simp [opStep, exitosa, obtener_listas_guardadas]

theorem length_runOps : ∀ (ops : List Op) (table : List Row),
    (runOps ops table).length = table.length + countExitosas ops
  | [], table => by simp [runOps, countExitosas]
  | op :: ops, table => by
    have ih := length_runOps ops (opStep op table)
    rw [runOps, ih, length_opStep]
    cases h : exitosa op with
    | false => simp [countExitosas, List.filter_cons, h]
    | true =>
      simp [countExitosas, List.filter_cons, h]
      omega

theorem runOps_append : ∀ (l₁ l₂ : List Op) (table : List Row),
    runOps (l₁ ++ l₂) table = runOps l₂ (runOps l₁ table)
  | [], l₂, table => by simp [runOps]
  | op :: ops, l₂, table => by
    rw [List.cons_append, runOps, runOps]
    exact runOps_append ops l₂ (opStep op table)

theorem opStep_conserva (op : Op) (table : List Row) : table <+: opStep op table := by
  cases op with
  | generar gen ins req =>
    cases hg : gen (promptFor req) with
    | ok t =>
      cases ins with
      | ok =>
        simp only [opStep, generar_lista_compra, hg]
        exact ⟨_, rfl⟩
      | err => exact ⟨[], by simp [opStep, generar_lista_compra, hg]⟩
    | err => exact ⟨[], by simp [opStep, generar_lista_compra, hg]⟩
  | sugerir gen req =>
    cases hg : gen (sugerirPrompt req) <;>
      exact ⟨[], by simp [opStep, sugerir_receta, hg]⟩
  | listar => exact ⟨[], by simp [opStep, obtener_listas_guardadas]⟩

/-- Claim C6: starting from the empty table, `GET /listas` returns exactly
as many records as there have been successful shopping-list generation
calls, and every operation only ever appends rows (the previous table is a
prefix of the new one): rows are never mutated or deleted. -/
theorem C6_listas_longitud_y_solo_append (ops : List Op) :
    (obtener_listas_guardadas (runOps ops [])).length = countExitosas ops
    ∧ ∀ op : Op, runOps ops [] <+: runOps (ops ++ [op]) [] := by
  constructor
  · simpa [obtener_listas_guardadas] using length_runOps ops []
  · intro op
    rw [runOps_append]
    simpa [runOps] using opStep_conserva op (runOps ops [])

/-- Claim C7: with recipe names `["Tortilla", "Ensalada"]` the rendered
prompt's recipe position holds exactly `"Tortilla, Ensalada"` (comma-space
joined, input order preserved), and in general the comma-space join of the
recipe names occurs verbatim inside the rendered prompt. -/
theorem C7_recetas_unidas_coma_espacio
    (req : RecetasInput) (h : req.nombres_recetas = ["Tortilla", "Ensalada"]) :
    String.intercalate ", " req.nombres_recetas = "Tortilla, Ensalada"
    ∧ promptFor req
        = promptPre ++ "Tortilla, Ensalada" ++ promptMid ++ promptIng req ++ promptPost
    ∧ ∀ r : RecetasInput,
        (String.intercalate ", " r.nombres_recetas).toList <:+: (promptFor r).toList := by
  have hj : String.intercalate ", " ["Tortilla", "Ensalada"] = "Tortilla, Ensalada" := by
    decide
  refine ⟨by rw [h, hj], by rw [promptFor, h, hj], ?_⟩
  intro r
  exact ⟨promptPre.toList, (promptMid ++ promptIng r ++ promptPost).toList,
    by simp [promptFor, String.toList, String.data_append, List.append_assoc]⟩

/-- Witness for C7 at the concrete request of the claim. -/
theorem C7_recetas_unidas_coma_espacio_witness :
    String.intercalate ", " ["Tortilla", "Ensalada"] = "Tortilla, Ensalada"
    ∧ promptFor ⟨["Tortilla", "Ensalada"], []⟩
        = promptPre ++ "Tortilla, Ensalada" ++ promptMid
            ++ promptIng ⟨["Tortilla", "Ensalada"], []⟩ ++ promptPost := by
  exact ⟨(C7_recetas_unidas_coma_espacio ⟨["Tortilla", "Ensalada"], []⟩ rfl).1,
    (C7_recetas_unidas_coma_espacio ⟨["Tortilla", "Ensalada"], []⟩ rfl).2.1⟩

/-- Claim C8: `POST /sugerir-receta/` never writes to the `listas_compra`
table, whatever the provider outcome: the table after the call equals the
table before it. -/
theorem C8_sugerir_no_persiste (gen : String → GenOutcome)
    (sugerencia_input : SugerenciaInput) (table : List Row) :
    (sugerir_receta gen sugerencia_input table).2 = table := by
  rw [sugerir_receta]
  cases gen (sugerirPrompt sugerencia_input) <;> rfl

/-- Claim C9: with an empty `nombres_recetas` list the recipe position of
the rendered prompt is the empty string (the join of no names), with no
placeholder substituted — unlike the ingredients position. -/
theorem C9_recetas_vacias_linea_vacia
    (req : RecetasInput) (h : req.nombres_recetas = []) :
    String.intercalate ", " req.nombres_recetas = ""
    ∧ promptFor req = promptPre ++ promptMid ++ promptIng req ++ promptPost := by
  have hj : String.intercalate ", " ([] : List String) = "" := by decide
  refine ⟨by rw [h, hj], ?_⟩
  rw [promptFor, h, hj]
  simp

/-- Witness for C9 at a concrete request with no recipe names. -/
theorem C9_recetas_vacias_linea_vacia_witness :
    String.intercalate ", " (RecetasInput.nombres_recetas ⟨[], ["sal"]⟩) = ""
    ∧ promptFor ⟨[], ["sal"]⟩
        = promptPre ++ promptMid ++ promptIng ⟨[], ["sal"]⟩ ++ promptPost := by
  exact C9_recetas_vacias_linea_vacia ⟨[], ["sal"]⟩ rfl

/-- Claim C10: on a successful generation with an empty available-ingredient
list, the persisted row's `ingredientes_disponibles` column is the raw join,
i.e. the empty string, while the prompt rendered `"Ninguno"`; in general the
stored join agrees with the prompt rendering exactly when the list is
non-empty. -/
theorem C10_fila_ingredientes_vacios_cadena_vacia
    (gen : String → GenOutcome) (req : RecetasInput) (table : List Row) (t : String)
    (hi : req.ingredientes_disponibles = [])
    (hg : gen (promptFor req) = GenOutcome.ok t) :
    (generar_lista_compra gen InsertOutcome.ok req table).2
      = table ++ [{ id := table.length + 1,
                    recetas := String.intercalate ", " req.nombres_recetas,
                    ingredientes_disponibles := "",
                    lista_generada := t }]
    ∧ promptIng req = "Ninguno"
    ∧ ∀ r : RecetasInput,
        (promptIng r = String.intercalate ", " r.ingredientes_disponibles
          ↔ r.ingredientes_disponibles ≠ []) := by
  have hj : String.intercalate ", " ([] : List String) = "" := by decide
  refine ⟨by simp [generar_lista_compra, hg, hi, hj], by simp [promptIng, hi], ?_⟩
  intro r
  cases hr : r.ingredientes_disponibles with
  | nil =>
    simp [promptIng, hr]
    decide
  | cons a as => simp [promptIng, hr]

/-- Witness for C10 at a concrete successful request with no available
ingredients. -/
theorem C10_fila_ingredientes_vacios_cadena_vacia_witness :
    (generar_lista_compra (fun _ => GenOutcome.ok "Pan") InsertOutcome.ok
        ⟨["Tortilla"], []⟩ []).2
      = [{ id := 1, recetas := "Tortilla",
           ingredientes_disponibles := "", lista_generada := "Pan" }]
    ∧ promptIng ⟨["Tortilla"], []⟩ = "Ninguno" := by
  exact ⟨(C10_fila_ingredientes_vacios_cadena_vacia (fun _ => GenOutcome.ok "Pan")
      ⟨["Tortilla"], []⟩ [] "Pan" rfl rfl).1,
    (C10_fila_ingredientes_vacios_cadena_vacia (fun _ => GenOutcome.ok "Pan")
      ⟨["Tortilla"], []⟩ [] "Pan" rfl rfl).2.1⟩
